import Mathlib

/-!
Shallow embedding of `src/src/app/_components/user-sport-section.tsx`.

The file is a React component managing a list of sports for a user.  We embed
its pure logic: the derived list `availableSports`, the display helpers
`getMatchingSportsIcon` and `formatSportName`, the local state of the
add-sport card (`open`, `selectedSport`, `pendingSport`) with its
`handleAdd` handler and auto-close effect, the main section state
(`userSports`, `sportToDelete`, `deletingPending`) with its delete
reconciliation effect and dialog handlers, and the mutation callbacks
(`onSuccess` / `onError`) as lists of emitted effects.
-/

namespace UserSportSection

/-- A sport identifier.  In the source, `Sport` is a string union type
(`"baseball" | "basketball" | "football" | "soccer" | "tennis"`), but the
select element casts an arbitrary string (`e.target.value as Sport`), so we
model it as `String`. -/
abbrev Sport := String

/-- The five icon components imported from react-icons
(`FaBaseballBall`, `FaBasketballBall`, `FaFootballBall`, `PiSoccerBall`,
`PiTennisBall`). -/
inductive SportsIcon where
  | faBaseballBall
  | faBasketballBall
  | faFootballBall
  | piSoccerBall
  | piTennisBall
deriving DecidableEq, Repr

/-- The closed set of sports that the icon switch knows about. -/
def knownSports : List Sport :=
  ["baseball", "basketball", "football", "soccer", "tennis"]

/-- `getMatchingSportsIcon` (lines 34-49): a `switch` over the sport with a
`default` branch that throws `Error`.  The throw is modelled as `none`. -/
def getMatchingSportsIcon (sport : Sport) : Option SportsIcon :=
  if sport = "baseball" then some .faBaseballBall
  else if sport = "basketball" then some .faBasketballBall
  else if sport = "football" then some .faFootballBall
  else if sport = "soccer" then some .piSoccerBall
  else if sport = "tennis" then some .piTennisBall
  else none

/-- `formatSportName` (lines 54-56):
`sport.charAt(0).toUpperCase() + sport.slice(1)`.
On the empty string, `charAt(0)` and `slice(1)` are both `""`, so the
result is `""`. -/
def formatSportName (sport : Sport) : String :=
  match sport.data with
  | [] => ""
  | c :: rest => String.mk (c.toUpper :: rest)

/-- `availableSports` (lines 200-202):
`allSports.filter((sport) => !userSports.includes(sport))`. -/
def availableSports (allSports userSports : List Sport) : List Sport :=
  allSports.filter (fun sport => !(userSports.contains sport))

/-- Observable side effects emitted by the handlers: query-cache
invalidation (`queryClient.invalidateQueries`), sonner toasts
(`toast.success` / `toast.error`), and the two mutation dispatches
(`addSportMutation.mutate` / `deleteSportMutation.mutate`). -/
inductive Effect where
  | invalidateQueries (key : String)
  | toastSuccess (msg : String)
  | toastError (msg : String)
  | dispatchAddSport (sport : Sport)
  | dispatchDeleteSport (sport : Sport)
deriving DecidableEq, Repr

/-- `addSportMutation.onSuccess` (lines 180-183): invalidate the
`userSports` query and emit one success toast naming the sport. -/
def onAddSuccess (sport : Sport) : List Effect :=
  [.invalidateQueries "userSports",
   .toastSuccess (formatSportName sport ++ " was successfully added.")]

/-- `addSportMutation.onError` (line 184): one error toast, nothing else. -/
def onAddError : List Effect :=
  [.toastError "Could not add sport — please try again."]

/-- `deleteSportMutation.onSuccess` (lines 190-193). -/
def onDeleteSuccess (sport : Sport) : List Effect :=
  [.invalidateQueries "userSports",
   .toastSuccess (formatSportName sport ++ " was successfully deleted.")]

/-- `deleteSportMutation.onError` (line 194). -/
def onDeleteError : List Effect :=
  [.toastError "Could not delete sport — please try again."]

/-- Local state of `AddSportCard` (lines 72-74): the `open` flag of the
dialog, the controlled `selectedSport` (where `""` means nothing
selected), and the `pendingSport` marker. -/
structure AddCardState where
  isOpen : Bool
  selectedSport : Sport
  pendingSport : Option Sport
deriving DecidableEq, Repr

/-- `beginningAdd` (line 76): `!!pendingSport || isMutating`. -/
def beginningAdd (st : AddCardState) (isMutating : Bool) : Bool :=
  st.pendingSport.isSome || isMutating

/-- The add confirm button (lines 149-155) is rendered with
`disabled={!selectedSport || beginningAdd}`. -/
def addButtonDisabled (st : AddCardState) (isMutating : Bool) : Bool :=
  st.selectedSport == "" || beginningAdd st isMutating

/-- `handleAdd` (lines 78-83): if a sport is selected and no add mutation
is in flight, call `onAdd(selectedSport)` (which dispatches the add
mutation) and record `pendingSport`; otherwise do nothing. -/
def handleAdd (st : AddCardState) (isMutating : Bool) :
    AddCardState × List Effect :=
  if st.selectedSport != "" && !isMutating then
    ({ st with pendingSport := some st.selectedSport },
     [.dispatchAddSport st.selectedSport])
  else
    (st, [])

/-- The `useEffect` of `AddSportCard` (lines 85-95): once a pending sport
exists, no mutation is in flight and the pending sport no longer appears
in `availableSports`, close the dialog and reset the selector and the
pending marker. -/
def addCardAutoClose (st : AddCardState) (isMutating : Bool)
    (avail : List Sport) : AddCardState :=
  match st.pendingSport with
  | some p =>
    if !isMutating && !(avail.contains p) then
      { isOpen := false, selectedSport := "", pendingSport := none }
    else st
  | none => st

/-- Local state of `UserSportSection` relevant to deletion: the cached
`userSports` list, `sportToDelete` (line 197), `deletingPending`
(line 198) and the in-flight flag of the mutation,
`deleteSportMutation.isPending`. -/
structure SectionState where
  userSports : List Sport
  sportToDelete : Option Sport
  deletingPending : Bool
  deleteIsPending : Bool
deriving DecidableEq, Repr

/-- The reconciliation `useEffect` (lines 204-219): clear the
pending-delete markers once the sport to delete is set, the pending flag
is set, the mutation is no longer in flight, and the sport is gone from
`userSports`. -/
def deleteReconcile (st : SectionState) : SectionState :=
  match st.sportToDelete with
  | some s =>
    if st.deletingPending && !st.deleteIsPending
        && !(st.userSports.contains s) then
      { st with sportToDelete := none, deletingPending := false }
    else st
  | none => st

/-- `handleDelete` (lines 223-226): set `deletingPending` and dispatch the
delete mutation. -/
def handleDelete (st : SectionState) (sport : Sport) :
    SectionState × List Effect :=
  ({ st with deletingPending := true }, [.dispatchDeleteSport sport])

/-- `isDeleting` (line 228) is just `deletingPending`. -/
def isDeleting (st : SectionState) : Bool :=
  st.deletingPending

/-- Each per-sport remove button (lines 248-254) is rendered with
`disabled={isDeleting}`, independent of which sport the card shows. -/
def removeButtonDisabled (st : SectionState) (_sport : Sport) : Bool :=
  isDeleting st

/-- The Cancel button of the delete dialog (lines 304-313) has
`disabled={isDeleting}`. -/
def cancelButtonDisabled (st : SectionState) : Bool :=
  isDeleting st

/-- The destructive Delete button of the dialog (lines 314-320) has
`disabled={isDeleting}`. -/
def deleteButtonDisabled (st : SectionState) : Bool :=
  isDeleting st

/-- The `onClick` of the Cancel button (lines 306-309): clear both
pending-delete markers; no effect is emitted. -/
def cancelDelete (st : SectionState) : SectionState × List Effect :=
  ({ st with sportToDelete := none, deletingPending := false }, [])

/-- The `onOpenChange` of the delete dialog (lines 279-284): on dismissal
(`open = false`) clear both pending-delete markers; otherwise do
nothing.  No effect is emitted either way. -/
def deleteDialogOnOpenChange (st : SectionState) (isOpen : Bool) :
    SectionState × List Effect :=
  if isOpen then (st, []) else
    ({ st with sportToDelete := none, deletingPending := false }, [])

/-- The `onClick` of the Delete button (line 316):
`sportToDelete && handleDelete(sportToDelete)`. -/
def confirmDelete (st : SectionState) : SectionState × List Effect :=
  match st.sportToDelete with
  | some s => handleDelete st s
  | none => (st, [])

end UserSportSection

namespace UserSportSection

/-! ### Helper lemmas -/

/-- `Char.ofNat` on a value below the surrogate range round-trips through
`toNat`. -/
lemma toNat_ofNat_of_lt {n : Nat} (h : n < 0xd800) :
    (Char.ofNat n).toNat = n := by
  rw [Char.ofNat, dif_pos (Or.inl h)]
  rfl

/-- `Char.toUpper` is idempotent: uppercasing maps the lowercase range
out of itself and fixes everything else. -/
lemma toUpper_toUpper (c : Char) : c.toUpper.toUpper = c.toUpper := by
  unfold Char.toUpper
  by_cases h : 97 ≤ c.toNat ∧ c.toNat ≤ 122
  · rw [if_pos h]
    have hlt : c.toNat - 32 < 0xd800 := by omega
    rw [toNat_ofNat_of_lt hlt]
    rw [if_neg (by omega)]
  · rw [if_neg h, if_neg h]

/-! ### Claims -/

/-- C1: for every pair of lists `allSports` and `userSports`, the derived
`availableSports` consists exactly of the elements of `allSports` not
contained in `userSports` (it is a function of the two source lists, so it
is recomputed from them and never stored); in particular, for
`allSports = [baseball, basketball, football]` and
`userSports = [baseball]`, `availableSports = [basketball, football]`. -/
theorem availableSports_eq_set_difference :
    (∀ (allS userS : List Sport) (s : Sport),
        s ∈ availableSports allS userS ↔ s ∈ allS ∧ s ∉ userS)
    ∧ availableSports ["baseball", "basketball", "football"] ["baseball"]
        = ["basketball", "football"] := by
  refine ⟨?_, by decide⟩
  intro allS userS s
  simp [availableSports, List.mem_filter]

/-- C10: `availableSports` is an order-preserving sublist of `allSports`
(it is a `filter`), and it retains exactly the elements of `allSports` not
occurring in `userSports`, each with its original multiplicity. -/
theorem availableSports_sublist_and_count :
    ∀ (allS userS : List Sport),
      (availableSports allS userS).Sublist allS
      ∧ ∀ a : Sport, (availableSports allS userS).count a =
          if a ∈ userS then 0 else allS.count a := by
  intro allS userS
  refine ⟨List.filter_sublist allS, ?_⟩
  intro a
  by_cases h : a ∈ userS
  · simp only [h, if_true]
    rw [List.count_eq_zero]
    intro hmem
    have := (List.mem_filter.mp hmem).2
    simp_all [availableSports, List.mem_filter]
  · simp only [h, if_false]
    exact List.count_filter (by simp [h])

/-- C9: `formatSportName` is a pure total function: on the empty string it
returns the empty string, on a nonempty string it uppercases the first
character and keeps the rest, and applying it a second time changes
nothing: `formatSportName (formatSportName x) = formatSportName x` for
every `x`. -/
theorem formatSportName_idempotent :
    formatSportName "" = ""
    ∧ (∀ (c : Char) (rest : List Char),
        formatSportName (String.mk (c :: rest)) = String.mk (c.toUpper :: rest))
    ∧ ∀ x : Sport, formatSportName (formatSportName x) = formatSportName x := by
  refine ⟨rfl, fun c rest => rfl, ?_⟩
  intro x
  cases x with
  | mk data =>
    cases data with
    | nil => rfl
    | cons c rest => simp [formatSportName, toUpper_toUpper]

/-- C8: `getMatchingSportsIcon` fails (the `default` branch throws,
modelled as `none`) exactly on sports outside the closed set
`{baseball, basketball, football, soccer, tennis}`; on the five known
sports it returns the five icons, which are pairwise distinct, so the
throwing branch is unreachable within the set. -/
theorem getMatchingSportsIcon_total_on_knownSports :
    (∀ s : Sport, getMatchingSportsIcon s = none ↔ s ∉ knownSports)
    ∧ knownSports.map getMatchingSportsIcon =
        [some .faBaseballBall, some .faBasketballBall, some .faFootballBall,
         some .piSoccerBall, some .piTennisBall]
    ∧ (knownSports.map getMatchingSportsIcon).Nodup := by
  refine ⟨?_, by decide, by decide⟩
  intro s
  simp only [getMatchingSportsIcon, knownSports, List.mem_cons, List.not_mem_nil]
  split_ifs <;> simp_all

/-- C7: `handleAdd` dispatches no mutation and changes no state when no
sport is selected or an add mutation is already in flight; otherwise it
dispatches exactly one add mutation for the selected sport and records it
as `pendingSport`.  In particular no second add mutation can be
dispatched while one is in flight. -/
theorem handleAdd_dispatch_guard :
    (∀ (st : AddCardState) (isMutating : Bool),
        st.selectedSport = "" ∨ isMutating = true →
          handleAdd st isMutating = (st, []))
    ∧ ∀ st : AddCardState, st.selectedSport ≠ "" →
        handleAdd st false =
          ({ st with pendingSport := some st.selectedSport },
           [.dispatchAddSport st.selectedSport]) := by
  constructor
  · intro st isMutating h
    rcases h with h | h <;> simp [handleAdd, h]
  · intro st h
    simp [handleAdd, h]

/-- C7 witness: with nothing selected (or while mutating) nothing happens;
with `"tennis"` selected and no mutation in flight, exactly one add
mutation for `"tennis"` is dispatched and recorded as pending. -/
theorem handleAdd_dispatch_guard_witness :
    handleAdd ⟨true, "", none⟩ true = (⟨true, "", none⟩, [])
    ∧ handleAdd ⟨true, "tennis", none⟩ false =
        (⟨true, "tennis", some "tennis"⟩, [.dispatchAddSport "tennis"]) :=
  ⟨handleAdd_dispatch_guard.1 ⟨true, "", none⟩ true (Or.inl rfl),
   handleAdd_dispatch_guard.2 ⟨true, "tennis", none⟩ (by decide)⟩

/-- C2 counterexample: the claim says the add confirm button is re-enabled
as soon as `isMutating` clears even though `pendingSport` is left in
place.  In the state after a failed add of `"tennis"`
(`selectedSport = "tennis"`, `pendingSport = some "tennis"`) with
`isMutating = false`, the button is still disabled, because
`beginningAdd = !!pendingSport || isMutating` is true whenever
`pendingSport` is set. -/
theorem addButton_reenabled_after_error_counterexample :
    addButtonDisabled ⟨true, "tennis", some "tennis"⟩ false ≠ false := by
  decide

/-- C2 amended: when the add mutation rejects, exactly one error
notification is emitted and the add dialog does not auto-close (the
pending sport is still in `availableSports`, since `userSports` was not
changed); but the add confirm button stays disabled even after
`isMutating` clears, because `pendingSport` is left in place. -/
theorem add_error_toast_no_autoclose_button_stays_disabled :
    onAddError = [.toastError "Could not add sport — please try again."]
    ∧ (∀ (st : AddCardState) (p : Sport) (avail : List Sport),
        st.pendingSport = some p → p ∈ avail →
          addCardAutoClose st false avail = st)
    ∧ ∀ (st : AddCardState) (isMutating : Bool),
        st.pendingSport.isSome = true →
          addButtonDisabled st isMutating = true := by
  refine ⟨rfl, ?_, ?_⟩
  · intro st p avail hp hmem
    simp [addCardAutoClose, hp, hmem]
  · intro st isMutating h
    simp [addButtonDisabled, beginningAdd, h]

/-- C2 witness: after a failed add of `"tennis"` (still available), the
auto-close effect leaves the card state unchanged and the confirm button
is disabled. -/
theorem add_error_toast_no_autoclose_button_stays_disabled_witness :
    addCardAutoClose ⟨true, "tennis", some "tennis"⟩ false ["tennis", "soccer"]
        = ⟨true, "tennis", some "tennis"⟩
    ∧ addButtonDisabled ⟨true, "tennis", some "tennis"⟩ false = true :=
  ⟨add_error_toast_no_autoclose_button_stays_disabled.2.1
      ⟨true, "tennis", some "tennis"⟩ "tennis" ["tennis", "soccer"] rfl
      (by decide),
   add_error_toast_no_autoclose_button_stays_disabled.2.2
      ⟨true, "tennis", some "tennis"⟩ false rfl⟩

/-- C3 counterexample: the claim says the pending-delete state remains set
only until the in-flight flag clears and that the Delete button is then
re-enabled.  After a failed delete of `"baseball"` (so `"baseball"` is
still in `userSports`) with the in-flight flag already cleared, the
reconciliation effect leaves `deletingPending` set and the Delete button
stays disabled. -/
theorem deleteButton_reenabled_after_error_counterexample :
    (deleteReconcile ⟨["baseball"], some "baseball", true, false⟩).deletingPending
        = true
    ∧ deleteButtonDisabled
        (deleteReconcile ⟨["baseball"], some "baseball", true, false⟩) ≠ false := by
  decide

/-- C3 amended: when the delete mutation rejects, one error notification
is emitted; but because the sport is still in `userSports`, the
reconciliation effect does not clear the pending-delete state even after
the in-flight flag clears, and the Delete action button of the dialog
remains disabled as long as `deletingPending` is set. -/
theorem delete_error_toast_pending_remains_button_disabled :
    onDeleteError = [.toastError "Could not delete sport — please try again."]
    ∧ (∀ (st : SectionState) (s : Sport),
        st.sportToDelete = some s → s ∈ st.userSports →
          deleteReconcile st = st)
    ∧ ∀ st : SectionState, st.deletingPending = true →
        deleteButtonDisabled st = true := by
  refine ⟨rfl, ?_, ?_⟩
  · intro st s hs hmem
    simp [deleteReconcile, hs, hmem]
  · intro st h
    simp [deleteButtonDisabled, isDeleting, h]

/-- C3 witness: after a failed delete of `"tennis"` (still subscribed)
with the in-flight flag cleared, reconciliation changes nothing and the
Delete button is disabled. -/
theorem delete_error_toast_pending_remains_button_disabled_witness :
    deleteReconcile ⟨["baseball", "tennis"], some "tennis", true, false⟩
        = ⟨["baseball", "tennis"], some "tennis", true, false⟩
    ∧ deleteButtonDisabled ⟨["baseball", "tennis"], some "tennis", true, false⟩
        = true :=
  ⟨delete_error_toast_pending_remains_button_disabled.2.1
      ⟨["baseball", "tennis"], some "tennis", true, false⟩ "tennis" rfl
      (by decide),
   delete_error_toast_pending_remains_button_disabled.2.2
      ⟨["baseball", "tennis"], some "tennis", true, false⟩ rfl⟩

/-- C4: when the add mutation for `s` succeeds, the `userSports` query key
is invalidated and exactly one success notification is emitted naming `s`
with its first letter capitalized (`formatSportName s`); and with a
pending sport `s` the dialog closes and the selector resets precisely when
no mutation is in flight and `s` no longer appears in
`availableSports`. -/
theorem add_success_invalidate_toast_autoclose :
    (∀ s : Sport, onAddSuccess s =
        [.invalidateQueries "userSports",
         .toastSuccess (formatSportName s ++ " was successfully added.")])
    ∧ ∀ (st : AddCardState) (s : Sport) (isMutating : Bool)
        (avail : List Sport),
        st.pendingSport = some s →
          (addCardAutoClose st isMutating avail =
              { isOpen := false, selectedSport := "", pendingSport := none }
            ↔ isMutating = false ∧ s ∉ avail) := by
  refine ⟨fun s => rfl, ?_⟩
  intro st s isMutating avail hp
  constructor
  · intro heq
    by_cases hc : (!isMutating && !(avail.contains s)) = true
    · simpa using hc
    · simp only [addCardAutoClose, hp] at heq
      rw [if_neg hc] at heq
      rw [heq] at hp
      simp at hp
  · rintro ⟨hm, hs⟩
    simp [addCardAutoClose, hp, hm, hs]

/-- C4 witness: a successful add of `"tennis"` invalidates `userSports`
and toasts `"Tennis was successfully added."`; once `"tennis"` left
`availableSports` and no mutation is in flight, the dialog closes and the
selector resets. -/
theorem add_success_invalidate_toast_autoclose_witness :
    onAddSuccess "tennis" =
      [.invalidateQueries "userSports",
       .toastSuccess (formatSportName "tennis" ++ " was successfully added.")]
    ∧ addCardAutoClose ⟨true, "tennis", some "tennis"⟩ false ["soccer"]
        = ⟨false, "", none⟩ :=
  ⟨add_success_invalidate_toast_autoclose.1 "tennis",
   (add_success_invalidate_toast_autoclose.2 ⟨true, "tennis", some "tennis"⟩
      "tennis" false ["soccer"] rfl).mpr ⟨rfl, by decide⟩⟩

/-- C5: canceling the delete-confirmation dialog — via the Cancel button
(`cancelDelete`) or by dismissing the dialog
(`deleteDialogOnOpenChange st false`) — emits no effect (in particular no
delete mutation is dispatched), clears `sportToDelete` and
`deletingPending`, and leaves `userSports` unchanged. -/
theorem cancelDelete_no_mutation_clears_markers :
    ∀ st : SectionState,
      cancelDelete st =
        ({ st with sportToDelete := none, deletingPending := false }, [])
      ∧ (cancelDelete st).1.userSports = st.userSports
      ∧ (cancelDelete st).2 = []
      ∧ deleteDialogOnOpenChange st false =
          ({ st with sportToDelete := none, deletingPending := false }, [])
      ∧ (deleteDialogOnOpenChange st false).1.userSports = st.userSports :=
  fun _ => ⟨rfl, rfl, rfl, rfl, rfl⟩

/-- C6: whenever the global `deletingPending` flag is set (it is set by
`handleDelete` when a delete is confirmed), every per-sport remove button
is disabled, and the disabled state does not depend on the sport — it is
governed by the single global flag. -/
theorem removeButtons_disabled_by_global_flag :
    (∀ (st : SectionState) (sport : Sport),
        st.deletingPending = true → removeButtonDisabled st sport = true)
    ∧ (∀ (st : SectionState) (s1 s2 : Sport),
        removeButtonDisabled st s1 = removeButtonDisabled st s2)
    ∧ ∀ (st : SectionState) (sport : Sport),
        (handleDelete st sport).1.deletingPending = true := by
  refine ⟨?_, fun _ _ _ => rfl, fun _ _ => rfl⟩
  intro st sport h
  simp [removeButtonDisabled, isDeleting, h]

/-- C6 witness: with a delete of `"baseball"` pending, the remove button
of the `"tennis"` card is disabled. -/
theorem removeButtons_disabled_by_global_flag_witness :
    removeButtonDisabled ⟨["baseball", "tennis"], some "baseball", true, true⟩
        "tennis" = true :=
  removeButtons_disabled_by_global_flag.1
    ⟨["baseball", "tennis"], some "baseball", true, true⟩ "tennis" rfl

end UserSportSection
